import Mathlib

/-!
# Verification of the ai-cv-evaluator asynchronous evaluation pipeline

A shallow embedding, in Lean 4, of the core of the `ai-cv-evaluator`
NestJS service: the job lifecycle state machine (`JobsService`), the
queue consumer (`EvaluationWorker.process`), the pipeline orchestrator
(`WorkerService.runAIPipeline`), the LLM adapter (`LlmService`), the
result formatter (`ResultService.formatResult`) and the RAG adapter
(`RagService`).

Modelling conventions:
* JavaScript runtime values flowing out of `JSON.parse` are modelled by
  the inductive `Jvalue`; JS `undefined` is modelled by `Option` (`none`
  = absent/undefined).  Numbers are modelled exactly as rationals: the
  code performs no arithmetic on them (parse, compare, store only), so
  no float rounding is observable.
* Every external effect (Gemini API call, file read, PDF parse, Qdrant
  call, injected database-write failure) is an oracle supplied through
  an explicit environment structure; the embedded functions consume the
  oracles exactly where the source performs the corresponding `await`.
* A thrown JS exception is an `Except.error` carrying the message; a
  Prisma `$transaction` commits a draft store or returns the caller's
  store unchanged (rollback).
* The Prisma store (`Db`) maps ids to rows functionally; row updates
  are pointwise function updates, mirroring updates keyed by unique id.
-/

namespace CvEval

/-- A JavaScript value as produced by `JSON.parse` (RFC 8259 data).
Numbers are carried as exact rationals (no arithmetic is ever performed
on them by the embedded code). -/
inductive Jvalue where
  | jnull : Jvalue
  | jbool : Bool → Jvalue
  | jnum : ℚ → Jvalue
  | jstr : String → Jvalue
  | jarr : List Jvalue → Jvalue
  | jobj : List (String × Jvalue) → Jvalue

namespace Json

/-- JSON whitespace (RFC 8259: space, tab, line feed, carriage return). -/
def isWs (c : Char) : Bool :=
  c = ' ' || c = '\t' || c = '\n' || c = '\r'

/-- Drop leading JSON whitespace. -/
def skipWs : List Char → List Char
  | [] => []
  | c :: cs => if isWs c then skipWs cs else c :: cs

/-- Value of a hex digit, if the character is one. -/
def hexVal? (c : Char) : Option Nat :=
  if '0' ≤ c ∧ c ≤ '9' then some (c.toNat - 48)
  else if 'a' ≤ c ∧ c ≤ 'f' then some (c.toNat - 87)
  else if 'A' ≤ c ∧ c ≤ 'F' then some (c.toNat - 55)
  else none

/-- Parse exactly four hex digits (the `\uXXXX` escape payload). -/
def parseHex4 : List Char → Option (Nat × List Char)
  | a :: b :: c :: d :: rest => do
    let va ← hexVal? a
    let vb ← hexVal? b
    let vc ← hexVal? c
    let vd ← hexVal? d
    some (va * 4096 + vb * 256 + vc * 16 + vd, rest)
  | _ => none

/-- Turn a code point into a `Char`; ill-formed UTF-16 (a lone
surrogate, which a JS string can hold but a Lean string cannot) becomes
U+FFFD. -/
def charOfCodePoint (n : Nat) : Char :=
  if Nat.isValidChar n then Char.ofNat n else '�'

/-- Body of a JSON string literal, after the opening quote.  Faithful to
`JSON.parse`: raw control characters are rejected, the eight single-char
escapes and `\uXXXX` are recognised, surrogate pairs combine. -/
def parseStringBody : Nat → List Char → List Char → Option (String × List Char)
  | 0, _, _ => none
  | _ + 1, _, [] => none
  | fuel + 1, acc, c :: cs =>
    if c = '"' then some (String.mk acc.reverse, cs)
    else if c.toNat < 0x20 then none
    else if c = '\\' then
      match cs with
      | [] => none
      | e :: cs' =>
        if e = '"' then parseStringBody fuel ('"' :: acc) cs'
        else if e = '\\' then parseStringBody fuel ('\\' :: acc) cs'
        else if e = '/' then parseStringBody fuel ('/' :: acc) cs'
        else if e = 'b' then parseStringBody fuel ('\x08' :: acc) cs'
        else if e = 'f' then parseStringBody fuel ('\x0c' :: acc) cs'
        else if e = 'n' then parseStringBody fuel ('\n' :: acc) cs'
        else if e = 'r' then parseStringBody fuel ('\r' :: acc) cs'
        else if e = 't' then parseStringBody fuel ('\t' :: acc) cs'
        else if e = 'u' then
          match parseHex4 cs' with
          | none => none
          | some (n, cs'') =>
            if 0xd800 ≤ n ∧ n ≤ 0xdbff then
              -- high surrogate: try to combine with a following \uXXXX
              match cs'' with
              | '\\' :: 'u' :: cs₃ =>
                match parseHex4 cs₃ with
                | some (n₂, cs₄) =>
                  if 0xdc00 ≤ n₂ ∧ n₂ ≤ 0xdfff then
                    parseStringBody fuel
                      (charOfCodePoint (0x10000 + (n - 0xd800) * 0x400 + (n₂ - 0xdc00)) :: acc) cs₄
                  else parseStringBody fuel (charOfCodePoint n :: acc) cs''
                | none => parseStringBody fuel (charOfCodePoint n :: acc) cs''
              | _ => parseStringBody fuel (charOfCodePoint n :: acc) cs''
            else
              parseStringBody fuel (charOfCodePoint n :: acc) cs''
        else none
    else parseStringBody fuel (c :: acc) cs

/-- Leading decimal digits of the input, and the rest. -/
def takeDigits : List Char → List Char × List Char
  | [] => ([], [])
  | c :: cs =>
    if '0' ≤ c ∧ c ≤ '9' then
      let (ds, rest) := takeDigits cs
      (c :: ds, rest)
    else ([], c :: cs)

/-- Numeric value of a digit string. -/
def digitsVal (ds : List Char) : Nat :=
  ds.foldl (fun a c => a * 10 + (c.toNat - 48)) 0

/-- A JSON number (RFC 8259 `number` grammar: optional minus, integer
part without leading zeros, optional fraction, optional exponent),
evaluated exactly as a rational. -/
def parseNumber (input : List Char) : Option (ℚ × List Char) :=
  let (neg, cs) :=
    match input with
    | '-' :: rest => (true, rest)
    | _ => (false, input)
  let (intDs, cs₁) := takeDigits cs
  if intDs = [] then none
  else if intDs.head? = some '0' ∧ intDs.length > 1 then none
  else
    let (fracDs, cs₂) :=
      match cs₁ with
      | '.' :: rest =>
        let (ds, r) := takeDigits rest
        (ds, r)
      | _ => ([], cs₁)
    -- a '.' must be followed by at least one digit
    if cs₁.head? = some '.' ∧ fracDs = [] then none
    else
      let (expOk, expNeg, expDs, cs₃) :=
        match cs₂ with
        | 'e' :: rest | 'E' :: rest =>
          let (sgn, rest₁) :=
            match rest with
            | '+' :: r => (false, r)
            | '-' :: r => (true, r)
            | _ => (false, rest)
          let (ds, r) := takeDigits rest₁
          (!ds.isEmpty, sgn, ds, r)
        | _ => (true, false, [], cs₂)
      if !expOk then none
      else
        let mant : ℕ := digitsVal intDs * 10 ^ fracDs.length + digitsVal fracDs
        let e : ℕ := digitsVal expDs
        let q : ℚ :=
          if expNeg then mkRat (Int.ofNat mant) (10 ^ (fracDs.length + e))
          else mkRat (Int.ofNat (mant * 10 ^ e)) (10 ^ fracDs.length)
        some ((if neg then -q else q), cs₃)

/-- Consume an expected literal keyword. -/
def expectLit (lit : List Char) (cs : List Char) : Option (List Char) :=
  if cs.take lit.length = lit then some (cs.drop lit.length) else none

mutual

/-- One JSON value (after leading whitespace). -/
def parseValue : Nat → List Char → Option (Jvalue × List Char)
  | 0, _ => none
  | fuel + 1, input =>
    match skipWs input with
    | [] => none
    | c :: cs =>
      if c = '"' then
        match parseStringBody (fuel + 1) [] cs with
        | some (s, rest) => some (.jstr s, rest)
        | none => none
      else if c = '{' then
        match skipWs cs with
        | '}' :: rest => some (.jobj [], rest)
        | cs' =>
          match parseMembers fuel cs' with
          | some (fields, rest) => some (.jobj fields, rest)
          | none => none
      else if c = '[' then
        match skipWs cs with
        | ']' :: rest => some (.jarr [], rest)
        | cs' =>
          match parseElements fuel cs' with
          | some (elems, rest) => some (.jarr elems, rest)
          | none => none
      else if c = 't' then
        match expectLit ['r', 'u', 'e'] cs with
        | some rest => some (.jbool true, rest)
        | none => none
      else if c = 'f' then
        match expectLit ['a', 'l', 's', 'e'] cs with
        | some rest => some (.jbool false, rest)
        | none => none
      else if c = 'n' then
        match expectLit ['u', 'l', 'l'] cs with
        | some rest => some (.jnull, rest)
        | none => none
      else if c = '-' ∨ ('0' ≤ c ∧ c ≤ '9') then
        match parseNumber (c :: cs) with
        | some (q, rest) => some (.jnum q, rest)
        | none => none
      else none

/-- One or more `"key": value` members, then the closing brace. -/
def parseMembers : Nat → List Char → Option (List (String × Jvalue) × List Char)
  | 0, _ => none
  | fuel + 1, input =>
    match skipWs input with
    | '"' :: cs =>
      match parseStringBody (fuel + 1) [] cs with
      | some (key, rest) =>
        match skipWs rest with
        | ':' :: rest₁ =>
          match parseValue fuel rest₁ with
          | some (v, rest₂) =>
            match skipWs rest₂ with
            | ',' :: rest₃ =>
              match parseMembers fuel rest₃ with
              | some (fields, rest₄) => some ((key, v) :: fields, rest₄)
              | none => none
            | '}' :: rest₃ => some ([(key, v)], rest₃)
            | _ => none
          | none => none
        | _ => none
      | none => none
    | _ => none

/-- One or more array elements, then the closing bracket. -/
def parseElements : Nat → List Char → Option (List Jvalue × List Char)
  | 0, _ => none
  | fuel + 1, input =>
    match parseValue fuel input with
    | some (v, rest) =>
      match skipWs rest with
      | ',' :: rest₁ =>
        match parseElements fuel rest₁ with
        | some (elems, rest₂) => some (v :: elems, rest₂)
        | none => none
      | ']' :: rest₁ => some ([v], rest₁)
      | _ => none
    | none => none

end

/-- Embeds `JSON.parse`: a complete JSON text, allowing surrounding
whitespace; `none` models the thrown `SyntaxError`. -/
def parse (s : String) : Option Jvalue :=
  match parseValue (2 * s.length + 8) s.data with
  | some (v, rest) => if skipWs rest = [] then some v else none
  | none => none

end Json

/-! ## JS property access and the worker's LLM-output parser -/

/-- Last-binding-wins lookup of a key in a parsed JSON object (with
duplicate keys, `JSON.parse` keeps the last occurrence). -/
def lookupLast (fields : List (String × Jvalue)) (key : String) : Option Jvalue :=
  fields.foldl (fun acc kv => if kv.1 = key then some kv.2 else acc) none

/-- The JS property read `v.k` on a `JSON.parse` result: reading a
property of `null` throws a `TypeError`; a primitive or an array has no
`score`/`feedback` property (JS `undefined`, modelled as `none`); an
object yields its binding. -/
def jsGet : Jvalue → String → Except String (Option Jvalue)
  | .jnull, _ => .error "TypeError: cannot read properties of null"
  | .jobj fields, key => .ok (lookupLast fields key)
  | _, _ => .ok none

/-- Embeds `String.prototype.replace` with a global literal pattern and the
empty replacement: scan left to right, erase each non-overlapping
occurrence, resume after it. -/
def eraseAll (pattern : List Char) : Nat → List Char → List Char
  | 0, cs => cs
  | _ + 1, [] => []
  | fuel + 1, c :: cs =>
    if (c :: cs).take pattern.length = pattern then
      eraseAll pattern fuel ((c :: cs).drop pattern.length)
    else
      c :: eraseAll pattern fuel cs

/-- The whitespace class of `String.prototype.trim` (restricted to the
ASCII whitespace the LLM responses in play contain). -/
def isTrimWs (c : Char) : Bool :=
  c = ' ' || c = '\t' || c = '\n' || c = '\r' || c = '\x0b' || c = '\x0c'

/-- Trim both ends, as `trim()`. -/
def trimChars (cs : List Char) : List Char :=
  ((cs.dropWhile isTrimWs).reverse.dropWhile isTrimWs).reverse

/-- The code-fence stripping in `WorkerService.parseEvaluation`:
`jsonString.replace(/```json/g, '').replace(/```/g, '').trim()`. -/
def cleanLlmResponse (s : String) : String :=
  let cs₁ := eraseAll "```json".data (s.data.length + 1) s.data
  let cs₂ := eraseAll "```".data (cs₁.length + 1) cs₁
  String.mk (trimChars cs₂)

/-- Embeds `WorkerService.parseEvaluation` (the active
`src/modules/worker/worker.service.ts` variant): `if (!jsonString)
return fallback` — both `null` and the empty string are falsy; then the
code fences are stripped and `JSON.parse` is attempted; a parse failure
yields the fallback, while a successful parse is returned through the
unchecked cast `as LLMEvaluationOutput` — no runtime check of the
`score`/`feedback` fields is performed. -/
def parseEvaluation (jsonString : Option String) (fallback : Jvalue) : Jvalue :=
  match jsonString with
  | none => fallback
  | some s =>
    if s = "" then fallback
    else
      match Json.parse (cleanLlmResponse s) with
      | some v => v
      | none => fallback

/-- The CV-stage fallback object passed by `runAIPipeline`:
`{score: 0.0, feedback: 'Gagal mem-parsing respons LLM untuk CV.'}`. -/
def cvFallback : Jvalue :=
  .jobj [("score", .jnum 0), ("feedback", .jstr "Gagal mem-parsing respons LLM untuk CV.")]

/-- The report-stage fallback object passed by `runAIPipeline`:
`{score: 0.0, feedback: 'Gagal mem-parsing respons LLM untuk Laporan Proyek.'}`. -/
def reportFallback : Jvalue :=
  .jobj [("score", .jnum 0),
    ("feedback", .jstr "Gagal mem-parsing respons LLM untuk Laporan Proyek.")]

/-! ## LlmService -/

/-- Embeds `LlmService.generateEvaluation`: the Gemini `generateContent` call
outcome is an oracle; on success the response text is returned, and an
API error is caught, logged and turned into `null` — the re-throwing
variant is present in the source only as a commented-out block. -/
def generateEvaluation (apiOutcome : Except String String) : Option String :=
  match apiOutcome with
  | .ok text => some text
  | .error _ => none

/-- Embeds `LlmService.generateEmbedding`: same catch-and-return-null shape
for the embedding call. -/
def generateEmbedding (apiOutcome : Except String (List ℚ)) : Option (List ℚ) :=
  match apiOutcome with
  | .ok v => some v
  | .error _ => none

/-! ## The Prisma store and JobsService -/

/-- A row of the `Job` table. -/
structure JobRow where
  id : String
  title : String
  cvId : String
  reportId : String
  status : String
  deriving Repr, DecidableEq

/-- A row of the `Result` table (all evaluation columns nullable). -/
structure ResultRow where
  jobId : String
  cvMatchRate : Option ℚ
  cvFeedback : Option String
  projectScore : Option ℚ
  projectFeedback : Option String
  overallSummary : Option String
  deriving Repr, DecidableEq

/-- A row of the `Document` table (only the fields the pipeline reads). -/
structure DocumentRow where
  id : String
  path : String
  deriving Repr, DecidableEq

/-- The relational store, keyed functionally by the unique ids the
source uses in every `where` clause. -/
structure Db where
  jobs : String → Option JobRow
  results : String → Option ResultRow
  documents : String → Option DocumentRow

/-- The nested `result: {upsert: {create: {overallSummary}, update:
{overallSummary}}}` write inside `updateJobStatus`: create a Result row
holding only the message, or overwrite only `overallSummary` of the
existing row. -/
def upsertSummary (db : Db) (jobId msg : String) : Db :=
  { db with
    results := fun j =>
      if j = jobId then
        some (match db.results jobId with
          | none =>
            { jobId := jobId
              cvMatchRate := none
              cvFeedback := none
              projectScore := none
              projectFeedback := none
              overallSummary := some msg }
          | some r => { r with overallSummary := some msg })
      else db.results j }

/-- Embeds `JobsService.updateJobStatus` (active variant): one
`prisma.job.update` keyed by `jobId` — a missing row makes Prisma throw
(`P2025`); the status is written unconditionally (no guard on the
current status), and when the new status is `'failed'` the nested
Result upsert stores `errorMessage ?? 'Unknown error'` in
`overallSummary`. -/
def updateJobStatus (db : Db) (jobId status : String) (errorMessage : Option String) :
    Except String Db :=
  match db.jobs jobId with
  | none => .error "P2025: record to update not found"
  | some job =>
    let db₁ : Db :=
      { db with
        jobs := fun j => if j = jobId then some { job with status := status } else db.jobs j }
    if status = "failed" then
      .ok (upsertSummary db₁ jobId (errorMessage.getD "Unknown error"))
    else
      .ok db₁

/-- Embeds `JobsService.getJobById`: fetch the job with both document
relations; a missing job throws `NotFoundException`, a missing relation
throws `InternalServerErrorException`. -/
def getJobById (db : Db) (jobId : String) :
    Except String (JobRow × DocumentRow × DocumentRow) :=
  match db.jobs jobId with
  | none => .error ("Job with ID " ++ jobId ++ " not found")
  | some job =>
    match db.documents job.cvId, db.documents job.reportId with
    | some cv, some report => .ok (job, cv, report)
    | _, _ => .error ("Job " ++ jobId ++ " is missing CV or Report document relations.")

/-- The runtime payload handed to `saveEvaluationResult`.  The TS type
declares numbers and strings, but the values actually flowing in come
from the unchecked cast in `parseEvaluation`, so each field is an
arbitrary JS value or `undefined`. -/
structure EvaluationResultData where
  cvMatchRate : Option Jvalue
  cvFeedback : Option Jvalue
  projectScore : Option Jvalue
  projectFeedback : Option Jvalue
  overallSummary : Option Jvalue

/-- Prisma's runtime validation of a value supplied for a nullable
`Float` column: `undefined` → field not provided, `null` → write SQL
NULL, a number → write it, anything else → `PrismaClientValidationError`
is thrown. -/
def floatField : Option Jvalue → Except String (Option (Option ℚ))
  | none => .ok none
  | some .jnull => .ok (some none)
  | some (.jnum q) => .ok (some (some q))
  | some _ => .error "PrismaClientValidationError"

/-- Prisma's runtime validation of a value supplied for a nullable
`String` column. -/
def stringField : Option Jvalue → Except String (Option (Option String))
  | none => .ok none
  | some .jnull => .ok (some none)
  | some (.jstr s) => .ok (some (some s))
  | some _ => .error "PrismaClientValidationError"

/-- Effect of a validated field write in an upsert `create` branch: an
absent field leaves the nullable column NULL. -/
def createField (w : Option (Option α)) : Option α :=
  match w with
  | none => none
  | some x => x

/-- Effect of a validated field write in an upsert `update` branch: an
absent field keeps the stored value. -/
def updateField (old : Option α) (w : Option (Option α)) : Option α :=
  match w with
  | none => old
  | some x => x

/-- Injected infrastructure failures for the two writes inside the
completion transaction. -/
structure TxFail where
  upsertFails : Bool
  jobUpdateFails : Bool
  deriving Repr, DecidableEq

/-- Embeds `JobsService.saveEvaluationResult` (active variant): a single
`prisma.$transaction` that (1) upserts the Result row with the five
evaluation fields and (2) sets the Job's status to `'completed'`.  The
interactive transaction is modelled by building the new store from the
caller's store and committing it only when both writes succeed; any
thrown error (injected write failure, Prisma validation error, missing
job row) rolls back, leaving the caller's store unchanged. -/
def saveEvaluationResult (db : Db) (jobId : String) (d : EvaluationResultData) (tx : TxFail) :
    Db × Except String Unit :=
  if tx.upsertFails then (db, .error "database write failed")
  else
    match (do
      let wRate ← floatField d.cvMatchRate
      let wCvFb ← stringField d.cvFeedback
      let wScore ← floatField d.projectScore
      let wPrFb ← stringField d.projectFeedback
      let wSum ← stringField d.overallSummary
      pure (wRate, wCvFb, wScore, wPrFb, wSum) : Except String _) with
    | .error e => (db, .error e)
    | .ok (wRate, wCvFb, wScore, wPrFb, wSum) =>
      let newRow : ResultRow :=
        match db.results jobId with
        | none =>
          { jobId := jobId
            cvMatchRate := createField wRate
            cvFeedback := createField wCvFb
            projectScore := createField wScore
            projectFeedback := createField wPrFb
            overallSummary := createField wSum }
        | some r =>
          { r with
            cvMatchRate := updateField r.cvMatchRate wRate
            cvFeedback := updateField r.cvFeedback wCvFb
            projectScore := updateField r.projectScore wScore
            projectFeedback := updateField r.projectFeedback wPrFb
            overallSummary := updateField r.overallSummary wSum }
      let draft : Db :=
        { db with results := fun j => if j = jobId then some newRow else db.results j }
      if tx.jobUpdateFails then (db, .error "database write failed")
      else
        match draft.jobs jobId with
        | none => (db, .error "P2025: record to update not found")
        | some job =>
          ({ draft with
             jobs := fun j =>
               if j = jobId then some { job with status := "completed" } else draft.jobs j },
           .ok ())

/-- Embeds `JobsService.getJobWithResult`: the job together with its Result
relation, or `null`. -/
def getJobWithResult (db : Db) (jobId : String) : Option (JobRow × Option ResultRow) :=
  match db.jobs jobId with
  | none => none
  | some job => some (job, db.results jobId)

/-! ## ResultService -/

/-- The snake_case `result` object of the polling response. -/
structure ResultPayload where
  cv_match_rate : Option ℚ
  cv_feedback : Option String
  project_score : Option ℚ
  project_feedback : Option String
  overall_summary : Option String
  deriving Repr, DecidableEq

/-- The polling response: `result = none` models the absent `result`
key. -/
structure FormattedResult where
  id : String
  status : String
  result : Option ResultPayload
  deriving Repr, DecidableEq

/-- Embeds `ResultService.formatResult` (active variant): `if (!job.result ||
job.status !== 'completed')` the response is only `{id, status}`; the
five result fields are exposed only for a completed job with a Result
row. -/
def formatResult (job : JobRow) (result : Option ResultRow) : FormattedResult :=
  match result with
  | none => { id := job.id, status := job.status, result := none }
  | some r =>
    if job.status ≠ "completed" then { id := job.id, status := job.status, result := none }
    else
      { id := job.id
        status := job.status
        result := some
          { cv_match_rate := r.cvMatchRate
            cv_feedback := r.cvFeedback
            project_score := r.projectScore
            project_feedback := r.projectFeedback
            overall_summary := r.overallSummary } }

/-- Embeds `ResultService.getJobResult`: look the job up with its result and
format it; a missing job throws `NotFoundException`. -/
def getJobResult (db : Db) (jobId : String) : Except String FormattedResult :=
  match getJobWithResult db jobId with
  | none => .error ("Job with ID " ++ jobId ++ " not found")
  | some (job, result) => .ok (formatResult job result)

/-! ## RagService and the vector store -/

/-- A point stored in the Qdrant collection:
`{id, vector, payload: {text, source}}`. -/
structure VectorPoint where
  id : String
  vector : List ℚ
  text : String
  source : String
  deriving Repr, DecidableEq

/-- A Qdrant collection: its configured vector dimensionality and its
points. -/
structure VectorCollection where
  size : Nat
  points : List VectorPoint
  deriving Repr, DecidableEq

/-- The Qdrant instance: named collections. -/
structure VectorStore where
  collections : List (String × VectorCollection)
  deriving Repr, DecidableEq

/-- The `QDRANT_COLLECTION_NAME` constant from `constants/qdrant.ts`. -/
def QDRANT_COLLECTION_NAME : String := "ground_truth_docs"

/-- The `GEMINI_VECTOR_SIZE` constant in `RagService`: the dimensionality of
`text-embedding-004`. -/
def GEMINI_VECTOR_SIZE : Nat := 768

/-- Look a collection up by name. -/
def findCollection (vs : VectorStore) (name : String) : Option VectorCollection :=
  (vs.collections.find? (fun kv => kv.1 = name)).map (fun kv => kv.2)

/-- Embeds `recreateCollection`: destructive replace-by-name. -/
def setCollection (vs : VectorStore) (name : String) (c : VectorCollection) : VectorStore :=
  { collections := (name, c) :: vs.collections.filter (fun kv => kv.1 ≠ name) }

/-- Append freshly ingested points to a named collection.  In every
reachable flow the collection exists here, because `recreateCollection`
ran just before; on a (unreachable) missing collection the store is
returned unchanged. -/
def upsertPoints (vs : VectorStore) (name : String) (pts : List VectorPoint) : VectorStore :=
  match findCollection vs name with
  | none => vs
  | some c => setCollection vs name { c with points := c.points ++ pts }

/-- The `'\n\n---\n\n'` separator `queryForContext` joins payload texts
with. -/
def contextSeparator : String := "\n\n---\n\n"

/-- Embeds `RagService.queryForContext`: embed the query (the embedding-call
outcome is the oracle `embedOutcome`); a `null` embedding throws
`'Failed to create query vector'`; then `qdrantClient.search` returns
up to `limit` points of the collection — the similarity ranking is the
oracle `select` (the vector index's internal ranking is outside the
spec) — whose payload texts are joined with the separator.  Searching a
collection that does not exist makes the Qdrant client throw. -/
def queryForContext (vs : VectorStore) (embedOutcome : Except String (List ℚ))
    (select : List VectorPoint → Nat → List VectorPoint) (limit : Nat) :
    Except String String :=
  match generateEmbedding embedOutcome with
  | none => .error "Failed to create query vector"
  | some _queryVector =>
    match findCollection vs QDRANT_COLLECTION_NAME with
    | none => .error ("Collection " ++ QDRANT_COLLECTION_NAME ++ " does not exist")
    | some coll =>
      .ok (String.intercalate contextSeparator ((select coll.points limit).map (fun p => p.text)))

/-- Oracles for every external call the startup ingestion performs. -/
structure IngestEnv where
  getCollectionsFails : Bool
  countFails : Bool
  getCollectionInfoFails : Bool
  recreateFails : Bool
  readdirOutcome : Except String (List String)
  readFile : String → Except String String
  chunker : String → List String
  embedChunk : String → Option (List ℚ)
  upsertFails : Bool
  freshId : Nat → String

/-- The per-file chunk-embedding loop: `uuidv4()` draws from `freshId`;
a chunk whose embedding comes back `null` is silently skipped (no point
pushed). -/
def buildPoints (env : IngestEnv) (file : String) (chunks : List String) (ctr : Nat) :
    List VectorPoint × Nat :=
  match chunks with
  | [] => ([], ctr)
  | c :: rest =>
    match env.embedChunk c with
    | some v =>
      let (pts, ctr') := buildPoints env file rest (ctr + 1)
      ({ id := env.freshId ctr, vector := v, text := c, source := file } :: pts, ctr')
    | none => buildPoints env file rest ctr

/-- The per-document ingestion loop of `ingestGroundTruthDocuments`:
read, chunk, embed, batch-upsert; the first thrown error stops the loop
with the state reached so far. -/
def ingestFiles (env : IngestEnv) (vs : VectorStore) (ctr : Nat) :
    List String → VectorStore × Except String Unit
  | [] => (vs, .ok ())
  | file :: rest =>
    match env.readFile file with
    | .error e => (vs, .error e)
    | .ok content =>
      let chunks := env.chunker content
      let (pts, ctr') := buildPoints env file chunks ctr
      if pts.isEmpty then ingestFiles env vs ctr' rest
      else if env.upsertFails then (vs, .error "qdrant upsert failed")
      else ingestFiles env (upsertPoints vs QDRANT_COLLECTION_NAME pts) ctr' rest

/-- The recreate-then-ingest tail of the startup routine: destructive
`recreateCollection` with size 768, `readdirSync` of the `documents`
directory filtered to `.txt`, then the per-file loop. -/
def recreateAndIngest (vs : VectorStore) (env : IngestEnv) : VectorStore × Except String Unit :=
  if env.recreateFails then (vs, .error "qdrant recreateCollection failed")
  else
    let vs₁ := setCollection vs QDRANT_COLLECTION_NAME ⟨GEMINI_VECTOR_SIZE, []⟩
    match env.readdirOutcome with
    | .error e => (vs₁, .error e)
    | .ok files => ingestFiles env vs₁ 0 (files.filter (fun f => f.endsWith ".txt"))

/-- The body of `RagService.ingestGroundTruthDocuments` (the variant
with the vector-size robustness check): skip ingestion only when the
collection exists, is populated and has the expected size; otherwise
recreate and ingest.  The pair's second component is the error the
enclosing `catch` will swallow, if any. -/
def ingestBody (vs : VectorStore) (env : IngestEnv) : VectorStore × Except String Unit :=
  if env.getCollectionsFails then (vs, .error "qdrant getCollections failed")
  else
    match findCollection vs QDRANT_COLLECTION_NAME with
    | some coll =>
      if env.countFails then (vs, .error "qdrant count failed")
      else if coll.points.length > 0 then
        if env.getCollectionInfoFails then (vs, .error "qdrant getCollection failed")
        else if coll.size = GEMINI_VECTOR_SIZE then (vs, .ok ())
        else recreateAndIngest vs env
      else recreateAndIngest vs env
    | none => recreateAndIngest vs env

/-- Embeds `RagService.ingestGroundTruthDocuments`: the whole body sits in
`try { ... } catch (error) { this.logger.error(...) }` with no
re-throw, so the routine always returns; its result is whatever state
the body reached. -/
def ingestGroundTruthDocuments (vs : VectorStore) (env : IngestEnv) : VectorStore :=
  (ingestBody vs env).1

/-- Embeds `RagService.onModuleInit`, which awaits the ingestion; NestJS module
initialization fails exactly when the hook rejects, and this hook never
does. -/
def ragOnModuleInit (vs : VectorStore) (env : IngestEnv) : Except String VectorStore :=
  .ok (ingestGroundTruthDocuments vs env)

/-! ## WorkerService: the pipeline orchestrator -/

/-- Oracles for the external calls one pipeline run performs, in call
order. -/
structure PipelineEnv where
  extract : String → Except String String
  cvEmbed : Except String (List ℚ)
  reportEmbed : Except String (List ℚ)
  select : List VectorPoint → Nat → List VectorPoint
  cvGen : Except String String
  reportGen : Except String String
  summaryGen : Except String String
  tx : TxFail

/-- Embeds `WorkerService.extractTextFromPdfs`: read both stored files and
parse them with pdfjs (both collapsed into the `extract` oracle, CV
first); any error is caught and re-thrown with the
`'Failed to parse PDF files: '` prefix. -/
def extractTextFromPdfs (env : PipelineEnv) (cvPath reportPath : String) :
    Except String (String × String) :=
  match env.extract cvPath with
  | .error e => .error ("Failed to parse PDF files: " ++ e)
  | .ok cvText =>
    match env.extract reportPath with
    | .error e => .error ("Failed to parse PDF files: " ++ e)
    | .ok reportText => .ok (cvText, reportText)

/-- The fixed fallback the summary stage substitutes when the generator
returns a falsy value (`null` or the empty string, via `||`). -/
def summaryFallback : String := "Gagal menghasilkan ringkasan akhir."

/-- Embeds `WorkerService.runAIPipeline` (active variant), stages in source
order: (1) `getJobById`, (2) `extractTextFromPdfs`, (3) CV evaluation —
RAG context (top‑4), Gemini call, `parseEvaluation` with the CV
fallback, then the logging/prompt property reads `.score`/`.feedback`,
(4) report evaluation likewise, (5) summary with the `||` fallback,
(6) assemble `finalResult`, (7) `saveEvaluationResult`.  Any error
escapes to the consumer; the only store write is the final transaction. -/
def runAIPipeline (db : Db) (vs : VectorStore) (env : PipelineEnv) (jobId : String) :
    Except String Db := do
  let (_job, cv, report) ← getJobById db jobId
  let (_cvText, _reportText) ← extractTextFromPdfs env cv.path report.path
  let _cvContext ← queryForContext vs env.cvEmbed env.select 4
  let cvEvalJson := generateEvaluation env.cvGen
  let cvResult := parseEvaluation cvEvalJson cvFallback
  let cvScore ← jsGet cvResult "score"
  let _reportContext ← queryForContext vs env.reportEmbed env.select 4
  let reportEvalJson := generateEvaluation env.reportGen
  let reportResult := parseEvaluation reportEvalJson reportFallback
  let reportScore ← jsGet reportResult "score"
  let cvFeedback ← jsGet cvResult "feedback"
  let reportFeedback ← jsGet reportResult "feedback"
  let overallSummary :=
    match generateEvaluation env.summaryGen with
    | none => summaryFallback
    | some s => if s = "" then summaryFallback else s
  let finalResult : EvaluationResultData :=
    { cvMatchRate := cvScore
      projectScore := reportScore
      cvFeedback := cvFeedback
      projectFeedback := reportFeedback
      overallSummary := some (.jstr overallSummary) }
  match saveEvaluationResult db jobId finalResult env.tx with
  | (_, .error e) => .error e
  | (db', .ok _) => .ok db'

/-! ## EvaluationWorker: the queue consumer -/

/-- The BullMQ job payload `{jobId}`; `none` models an absent
property. -/
structure WorkData where
  jobId : Option String
  deriving Repr, DecidableEq

/-- A delivered BullMQ work item. -/
structure WorkItem where
  name : String
  data : Option WorkData
  attemptsMade : Nat
  deriving Repr, DecidableEq

/-- The `EVALUATION_JOB_NAME` constant from `constants`. -/
def EVALUATION_JOB_NAME : String := "evaluate-job"

/-- Embeds the check `!job.data || !job.data.jobId`: data absent, `jobId` absent, or the
falsy empty string. -/
def invalidPayload (item : WorkItem) : Bool :=
  match item.data with
  | none => true
  | some d =>
    match d.jobId with
    | none => true
    | some s => s = ""

/-- The `jobId` carried by a work item's payload (empty when absent). -/
def payloadId (item : WorkItem) : String :=
  ((item.data.getD ⟨none⟩).jobId).getD ""

/-- Embeds `EvaluationWorker.process`: validate the payload (throwing without
touching the store on a bad one), check the job name, mark
`'processing'`, run the pipeline, and on any caught error mark
`'failed'` (storing the message) and re-throw so BullMQ counts a failed
attempt.  Returns the store after the delivery plus the settled
outcome. -/
def process (db : Db) (vs : VectorStore) (item : WorkItem) (env : PipelineEnv) :
    Db × Except String Unit :=
  if invalidPayload item then (db, .error "Invalid job data")
  else
    let jobId := payloadId item
    if item.name = EVALUATION_JOB_NAME then
      match updateJobStatus db jobId "processing" none with
      | .error e =>
        match updateJobStatus db jobId "failed" (some e) with
        | .error e₂ => (db, .error e₂)
        | .ok db₂ => (db₂, .error e)
      | .ok db₁ =>
        match runAIPipeline db₁ vs env jobId with
        | .ok db₂ => (db₂, .ok ())
        | .error e =>
          match updateJobStatus db₁ jobId "failed" (some e) with
          | .error e₂ => (db₁, .error e₂)
          | .ok db₂ => (db₂, .error e)
    else (db, .error ("Unknown job name: " ++ item.name))

/-! ## The queue: attempts, backoff, retention -/

/-- The `attempts: 3` setting from the shared Bull configuration. -/
def QUEUE_ATTEMPTS : Nat := 3

/-- The whole system: the relational store, the vector store, the
waiting work items (retries re-enter here after their backoff delay)
and the retained failed items (`removeOnFail: false`). -/
structure SysState where
  db : Db
  vs : VectorStore
  waiting : List WorkItem
  failedSet : List WorkItem

/-- One delivery by the BullMQ worker (`concurrency: 1`): the head item
is processed; on success it is removed (`removeOnComplete: true`); on
failure its attempt counter increments and it is redelivered later
while fewer than 3 attempts were made, otherwise it is moved to the
retained failed set. -/
def stepQueue (sys : SysState) (env : PipelineEnv) : SysState :=
  match sys.waiting with
  | [] => sys
  | item :: rest =>
    let (db', outcome) := process sys.db sys.vs item env
    match outcome with
    | .ok _ => { sys with db := db', waiting := rest }
    | .error _ =>
      let item' := { item with attemptsMade := item.attemptsMade + 1 }
      if item'.attemptsMade < QUEUE_ATTEMPTS then
        { sys with db := db', waiting := rest ++ [item'] }
      else
        { sys with db := db', waiting := rest, failedSet := sys.failedSet ++ [item'] }

/-! ## Concrete fixtures used by witnesses and counterexamples -/

/-- A stored CV document. -/
def cvDoc : DocumentRow := { id := "d-cv", path := "/uploads/cv.pdf" }

/-- A stored report document. -/
def reportDoc : DocumentRow := { id := "d-rep", path := "/uploads/report.pdf" }

/-- The job `j1` in a given status. -/
def job1 (status : String) : JobRow :=
  { id := "j1", title := "Backend Engineer", cvId := "d-cv", reportId := "d-rep", status := status }

/-- A store holding `j1` (in the given shape) and both documents. -/
def mkDb (job : Option JobRow) (result : Option ResultRow) : Db :=
  { jobs := fun j => if j = "j1" then job else none
    results := fun j => if j = "j1" then result else none
    documents := fun d =>
      if d = "d-cv" then some cvDoc else if d = "d-rep" then some reportDoc else none }

/-- The store right after submission: `j1` queued, no Result. -/
def db0 : Db := mkDb (some (job1 "queued")) none

/-- A populated ground-truth collection. -/
def vs0 : VectorStore :=
  { collections :=
      [("ground_truth_docs",
        { size := 768
          points := [{ id := "p1", vector := [1], text := "rubric text", source := "jd.txt" }] })] }

/-- An environment in which every external call succeeds and the model
answers well-formed JSON. -/
def okEnv : PipelineEnv :=
  { extract := fun _ => .ok "extracted text"
    cvEmbed := .ok [1]
    reportEmbed := .ok [1]
    select := fun pts n => pts.take n
    cvGen := .ok "\x7b\"score\": 0.8, \"feedback\": \"Strong match\"\x7d"
    reportGen := .ok "\x7b\"score\": 4.0, \"feedback\": \"Solid architecture\"\x7d"
    summaryGen := .ok "Good candidate."
    tx := { upsertFails := false, jobUpdateFails := false } }

/-- Variant of `okEnv` with every Gemini generation call failing at the API. -/
def genFailEnv : PipelineEnv :=
  { okEnv with
    cvGen := .error "API failure"
    reportGen := .error "API failure"
    summaryGen := .error "API failure" }

/-- Variant of `okEnv` with the PDF read/parse failing. -/
def pdfFailEnv : PipelineEnv :=
  { okEnv with extract := fun _ => .error "ENOENT" }

/-- Variant of `okEnv` with only the report-stage generation failing. -/
def reportFailEnv : PipelineEnv :=
  { okEnv with reportGen := .error "boom" }

/-- Variant of `okEnv` with the report stage answering valid JSON whose score (7)
lies outside the rubric range `[1,5]`. -/
def reportOutOfRangeEnv : PipelineEnv :=
  { okEnv with reportGen := .ok "\x7b\"score\": 7, \"feedback\": \"overshoot\"\x7d" }

/-- Variant of `okEnv` with the report stage answering valid JSON that
carries no `score` field at all: the unchecked cast leaves the score
`undefined`, which Prisma turns into a NULL column. -/
def reportNoScoreEnv : PipelineEnv :=
  { okEnv with reportGen := .ok "\x7b\"feedback\": \"hi\"\x7d" }

/-- A correctly-shaped delivery for `j1`. -/
def item1 : WorkItem := { name := "evaluate-job", data := some { jobId := some "j1" }, attemptsMade := 0 }

/-- A delivery whose payload lacks `jobId`. -/
def badItem : WorkItem := { name := "evaluate-job", data := some { jobId := none }, attemptsMade := 0 }

/-- A delivery referencing a job id with no Job row. -/
def ghostItem : WorkItem :=
  { name := "evaluate-job", data := some { jobId := some "ghost" }, attemptsMade := 0 }

/-- The fully populated Result row the fixture pipeline run produces. -/
def fullResultRow : ResultRow :=
  { jobId := "j1", cvMatchRate := some (mkRat 4 5), cvFeedback := some "Strong match",
    projectScore := some 4, projectFeedback := some "Solid architecture",
    overallSummary := some "Good candidate." }

/-- A well-typed payload for the completion transaction. -/
def goodResultData : EvaluationResultData :=
  { cvMatchRate := some (.jnum (mkRat 4 5))
    cvFeedback := some (.jstr "Strong match")
    projectScore := some (.jnum 4)
    projectFeedback := some (.jstr "Solid architecture")
    overallSummary := some (.jstr "Good candidate.") }

/-- The system state after the single delivery of `j1`'s work item in
an environment where every generation call fails at the API. -/
def c1Sys : SysState :=
  stepQueue { db := db0, vs := vs0, waiting := [item1], failedSet := [] } genFailEnv

/-- The redelivery of `j1`'s work item after the job already completed,
with the PDF read failing on this delivery (the queue's at-least-once
guarantee makes such a redelivery possible, e.g. after a crash between
the database writes and the queue acknowledgement). -/
def c2Redelivery : Db × Except String Unit :=
  process (mkDb (some (job1 "completed")) (some fullResultRow)) vs0 item1 pdfFailEnv

/-- The delivery of `j1` in which the report-stage generation fails, so
the report fallback (score 0) is persisted. -/
def c7FallbackRun : Db × Except String Unit := process db0 vs0 item1 reportFailEnv

/-- The delivery of `j1` in which the report stage answers valid JSON
with score 7. -/
def c7OutOfRangeRun : Db × Except String Unit := process db0 vs0 item1 reportOutOfRangeEnv

/-- One queue step on a delivery whose payload lacks `jobId`. -/
def c5BadSys : SysState := stepQueue { db := db0, vs := vs0, waiting := [badItem], failedSet := [] } okEnv

/-- One queue step on a delivery referencing a missing Job row. -/
def c5GhostSys : SysState :=
  stepQueue { db := db0, vs := vs0, waiting := [ghostItem], failedSet := [] } okEnv

/-- The system after the first failed delivery of `j1` (PDF read
failing): a retry is still pending. -/
def c6Sys1 : SysState := stepQueue { db := db0, vs := vs0, waiting := [item1], failedSet := [] } pdfFailEnv

/-- The system after all three delivery attempts failed. -/
def c6Sys3 : SysState := stepQueue (stepQueue c6Sys1 pdfFailEnv) pdfFailEnv

/-- The store after `j1`'s successful first delivery. -/
def c8FirstRun : Db := (process db0 vs0 item1 okEnv).1

/-- The store after a duplicate delivery of the same work item fails
(at-least-once delivery; the PDF read fails this time). -/
def c8Redelivered : Db := (process c8FirstRun vs0 item1 pdfFailEnv).1

/-- An ingestion environment with no failures and an empty documents
directory. -/
def ingestEnv0 : IngestEnv :=
  { getCollectionsFails := false
    countFails := false
    getCollectionInfoFails := false
    recreateFails := false
    readdirOutcome := .ok []
    readFile := fun _ => .error "ENOENT"
    chunker := fun s => [s]
    embedChunk := fun _ => none
    upsertFails := false
    freshId := fun _ => "id" }

/-! ## Helper lemmas about the store operations -/

/-- Lemma: `updateJobStatus` touches only the rows keyed by its `jobId`. -/
lemma updateJobStatus_frame {db : Db} {jobId st : String} {msg : Option String} {db' : Db}
    (h : updateJobStatus db jobId st msg = .ok db') :
    ∀ j, j ≠ jobId → db'.jobs j = db.jobs j ∧ db'.results j = db.results j := by
  intro j hj
  unfold updateJobStatus at h
  cases hjob : db.jobs jobId with
  | none => rw [hjob] at h; exact absurd h (by simp)
  | some job =>
    rw [hjob] at h
    dsimp only at h
    by_cases hst : st = "failed"
    · subst hst
      rw [if_pos rfl] at h
      simp only [Except.ok.injEq] at h
      subst h
      simp [upsertSummary, hj]
    · rw [if_neg hst] at h
      simp only [Except.ok.injEq] at h
      subst h
      simp [hj]

/-- A successful `updateJobStatus` rewrites exactly the status of the
existing row. -/
lemma updateJobStatus_status {db : Db} {jobId st : String} {msg : Option String} {db' : Db}
    (h : updateJobStatus db jobId st msg = .ok db') :
    ∃ job, db.jobs jobId = some job ∧ db'.jobs jobId = some { job with status := st } := by
  unfold updateJobStatus at h
  cases hjob : db.jobs jobId with
  | none => rw [hjob] at h; exact absurd h (by simp)
  | some job =>
    rw [hjob] at h
    dsimp only at h
    refine ⟨job, rfl, ?_⟩
    by_cases hst : st = "failed"
    · subst hst
      rw [if_pos rfl] at h
      simp only [Except.ok.injEq] at h
      subst h
      simp [upsertSummary]
    · rw [if_neg hst] at h
      simp only [Except.ok.injEq] at h
      subst h
      simp

/-- C9 (also reused literally by other proofs): the `'failed'` branch
of `updateJobStatus` on a job that already has a Result row updates
only `overallSummary`. -/
lemma updateJobStatus_failed_eq {db : Db} {jobId msg : String} {job : JobRow} {r : ResultRow}
    (hjob : db.jobs jobId = some job) (hres : db.results jobId = some r) :
    ∃ db', updateJobStatus db jobId "failed" (some msg) = .ok db' ∧
      db'.jobs jobId = some { job with status := "failed" } ∧
      db'.results jobId = some { r with overallSummary := some msg } := by
  unfold updateJobStatus
  rw [hjob]
  simp only [if_pos rfl]
  refine ⟨_, rfl, ?_, ?_⟩
  · simp [upsertSummary]
  · simp [upsertSummary, hres]

/-! ## C9 -/

/-- C9: for every job that already has a Result row,
`updateJobStatus(jobId, 'failed', message)` overwrites only the
Result's `overallSummary` besides the Job's status: `cvMatchRate`,
`cvFeedback`, `projectScore` and `projectFeedback` keep their previous
values (and other jobs' rows are untouched), so score fields written by
an earlier successful run survive a later failure unchanged. -/
theorem c9_failed_update_is_summary_only (db : Db) (jobId msg : String) (job : JobRow)
    (r : ResultRow) (hjob : db.jobs jobId = some job) (hres : db.results jobId = some r) :
    ∃ db', updateJobStatus db jobId "failed" (some msg) = .ok db' ∧
      db'.jobs jobId = some { job with status := "failed" } ∧
      (∃ r', db'.results jobId = some r' ∧
        r'.cvMatchRate = r.cvMatchRate ∧ r'.cvFeedback = r.cvFeedback ∧
        r'.projectScore = r.projectScore ∧ r'.projectFeedback = r.projectFeedback ∧
        r'.overallSummary = some msg) ∧
      ∀ j, j ≠ jobId → db'.jobs j = db.jobs j ∧ db'.results j = db.results j := by
  obtain ⟨db', heq, hj, hr⟩ := @updateJobStatus_failed_eq db jobId msg job r hjob hres
  exact ⟨db', heq, hj, ⟨_, hr, rfl, rfl, rfl, rfl, rfl⟩, updateJobStatus_frame heq⟩

/-- Witness for C9 at a concrete store: `j1` completed with a fully
populated Result, then marked failed with message `"boom"`. -/
theorem c9_witness :
    ∃ db', updateJobStatus (mkDb (some (job1 "completed")) (some fullResultRow)) "j1" "failed"
        (some "boom") = .ok db' ∧
      db'.jobs "j1" = some { job1 "completed" with status := "failed" } ∧
      (∃ r', db'.results "j1" = some r' ∧
        r'.cvMatchRate = fullResultRow.cvMatchRate ∧ r'.cvFeedback = fullResultRow.cvFeedback ∧
        r'.projectScore = fullResultRow.projectScore ∧
        r'.projectFeedback = fullResultRow.projectFeedback ∧
        r'.overallSummary = some "boom") ∧
      ∀ j, j ≠ "j1" → db'.jobs j = (mkDb (some (job1 "completed")) (some fullResultRow)).jobs j ∧
        db'.results j = (mkDb (some (job1 "completed")) (some fullResultRow)).results j :=
  c9_failed_update_is_summary_only _ _ "boom" _ _ (by rfl) (by rfl)

/-! ## C3 -/

/-- C3: for every jobId and result data, `saveEvaluationResult`
performs the Result upsert and the Job transition to `'completed'` as
one atomic unit: on success both writes took effect — the Job row is
`'completed'`, a Result row is in place, and when the payload carries
the five typed evaluation values the row now holds exactly those
values (whether it was created or updated) — and no other row changed;
on any failure of either write the store is returned unchanged. -/
theorem c3_save_transaction_atomic (db : Db) (jobId : String) (d : EvaluationResultData)
    (tx : TxFail) :
    (∀ e, (saveEvaluationResult db jobId d tx).2 = .error e →
      (saveEvaluationResult db jobId d tx).1 = db) ∧
    (∀ u, (saveEvaluationResult db jobId d tx).2 = .ok u →
      ∃ job, db.jobs jobId = some job ∧
        (saveEvaluationResult db jobId d tx).1.jobs jobId = some { job with status := "completed" } ∧
        ((saveEvaluationResult db jobId d tx).1.results jobId).isSome ∧
        (∀ j, j ≠ jobId →
          (saveEvaluationResult db jobId d tx).1.jobs j = db.jobs j ∧
          (saveEvaluationResult db jobId d tx).1.results j = db.results j) ∧
        ∀ qc fc qp fp sm,
          d.cvMatchRate = some (.jnum qc) → d.cvFeedback = some (.jstr fc) →
          d.projectScore = some (.jnum qp) → d.projectFeedback = some (.jstr fp) →
          d.overallSummary = some (.jstr sm) →
          ∃ r', (saveEvaluationResult db jobId d tx).1.results jobId = some r' ∧
            r'.cvMatchRate = some qc ∧ r'.cvFeedback = some fc ∧
            r'.projectScore = some qp ∧ r'.projectFeedback = some fp ∧
            r'.overallSummary = some sm) := by
  unfold saveEvaluationResult
  split
  · simp
  · split
    · simp
    · rename_i w₁ w₂ w₃ w₄ w₅ hv
      dsimp only
      split
      · simp
      · split
        · simp
        · rename_i job hjob
          refine ⟨by simp, fun u _ => ⟨job, hjob, ?_, ?_, ?_, ?_⟩⟩
          · simp
          · simp
          · intro j hj
            simp [hj]
          · intro qc fc qp fp sm hd₁ hd₂ hd₃ hd₄ hd₅
            rw [hd₁, hd₂, hd₃, hd₄, hd₅] at hv
            simp only [floatField, stringField, bind, Except.bind, pure, Except.pure,
              Except.ok.injEq, Prod.mk.injEq] at hv
            obtain ⟨h₁, h₂, h₃, h₄, h₅⟩ := hv
            subst h₁ h₂ h₃ h₄ h₅
            cases hr : db.results jobId with
            | none =>
              exact ⟨{ jobId := jobId, cvMatchRate := some qc, cvFeedback := some fc,
                       projectScore := some qp, projectFeedback := some fp,
                       overallSummary := some sm },
                     by simp [hr, createField], rfl, rfl, rfl, rfl, rfl⟩
            | some r =>
              exact ⟨{ jobId := r.jobId, cvMatchRate := some qc, cvFeedback := some fc,
                       projectScore := some qp, projectFeedback := some fp,
                       overallSummary := some sm },
                     by simp [hr, updateField], rfl, rfl, rfl, rfl, rfl⟩

/-- Witness for C3: the transaction run on the fixture store with
well-typed data succeeds, completing `j1` and landing exactly the given
values in the Result row. -/
theorem c3_witness :
    ∃ job, db0.jobs "j1" = some job ∧
      (saveEvaluationResult db0 "j1" goodResultData
        { upsertFails := false, jobUpdateFails := false }).1.jobs "j1" =
        some { job with status := "completed" } ∧
      ((saveEvaluationResult db0 "j1" goodResultData
        { upsertFails := false, jobUpdateFails := false }).1.results "j1").isSome ∧
      (∀ j, j ≠ "j1" →
        (saveEvaluationResult db0 "j1" goodResultData
          { upsertFails := false, jobUpdateFails := false }).1.jobs j = db0.jobs j ∧
        (saveEvaluationResult db0 "j1" goodResultData
          { upsertFails := false, jobUpdateFails := false }).1.results j = db0.results j) ∧
      (∃ r', (saveEvaluationResult db0 "j1" goodResultData
          { upsertFails := false, jobUpdateFails := false }).1.results "j1" = some r' ∧
        r'.cvMatchRate = some (mkRat 4 5) ∧ r'.cvFeedback = some "Strong match" ∧
        r'.projectScore = some 4 ∧ r'.projectFeedback = some "Solid architecture" ∧
        r'.overallSummary = some "Good candidate.") := by
  obtain ⟨job, hjob, hcomp, hsome, hframe, hpin⟩ :=
    (c3_save_transaction_atomic db0 "j1" goodResultData
      { upsertFails := false, jobUpdateFails := false }).2 () (by rfl)
  exact ⟨job, hjob, hcomp, hsome, hframe,
    hpin (mkRat 4 5) "Strong match" 4 "Solid architecture" "Good candidate."
      rfl rfl rfl rfl rfl⟩

/-! ## C4 -/

/-- C4 counterexample: a scoring response that is valid JSON but whose
`score`/`feedback` fields have the wrong types is NOT replaced by the
fallback — the active `parseEvaluation` casts without checking, so
`{"score": "high", "feedback": 42}` flows through with a string score. -/
theorem c4_counterexample :
    parseEvaluation (some "\x7b\"score\": \"high\", \"feedback\": 42\x7d") cvFallback =
      .jobj [("score", .jstr "high"), ("feedback", .jnum 42)] ∧
    jsGet (parseEvaluation (some "\x7b\"score\": \"high\", \"feedback\": 42\x7d") cvFallback) "score" =
      .ok (some (.jstr "high")) ∧
    parseEvaluation (some "\x7b\"score\": \"high\", \"feedback\": 42\x7d") cvFallback ≠ cvFallback := by
  refine ⟨by rfl, by rfl, ?_⟩
  intro h
  rw [show parseEvaluation (some "\x7b\"score\": \"high\", \"feedback\": 42\x7d") cvFallback =
      .jobj [("score", .jstr "high"), ("feedback", .jnum 42)] from rfl] at h
  simp [cvFallback] at h

/-- C4 (amended): a scoring-stage response that is not valid JSON after
stripping the code fences yields the stage fallback `{score: 0,
feedback: <diagnostic>}`, and the pipeline proceeds to the summary
stage rather than aborting (here: the report stage answers `"not
json"`, yet the job completes with the report fallback persisted and
the summary generator's answer stored); wrong-typed fields in valid
JSON, however, are not replaced by the fallback (see the
counterexample). -/
theorem c4_invalid_json_falls_back_and_pipeline_continues :
    (∀ s fb, s ≠ "" → Json.parse (cleanLlmResponse s) = none →
      parseEvaluation (some s) fb = fb) ∧
    (∃ db', runAIPipeline db0 vs0 { okEnv with reportGen := .ok "not json" } "j1" = .ok db' ∧
      db'.results "j1" = some
        { jobId := "j1", cvMatchRate := some (mkRat 4 5), cvFeedback := some "Strong match",
          projectScore := some 0,
          projectFeedback := some "Gagal mem-parsing respons LLM untuk Laporan Proyek.",
          overallSummary := some "Good candidate." } ∧
      (db'.jobs "j1").map (fun job => job.status) = some "completed") := by
  constructor
  · intro s fb hs hparse
    simp [parseEvaluation, hs, hparse]
  · exact ⟨_, rfl, rfl, rfl⟩

/-- Witness for C4 at the spec's own example: the literal response
`"not json"` yields the CV fallback. -/
theorem c4_witness : parseEvaluation (some "not json") cvFallback = cvFallback :=
  c4_invalid_json_falls_back_and_pipeline_continues.1 "not json" cvFallback
    (by decide) (by rfl)

/-! ## The pipeline's behaviour when both scoring stages parse to
score/feedback objects -/

/-- When loading, extraction and retrieval succeed, both scoring-stage
results parse to `{score, feedback}` objects and the completion
transaction does not fail, the pipeline persists exactly the parsed
values (no range check, no clamping) and completes the job.  The
`overallSummary` column receives the summary response, or the fixed
fallback when the generator's answer is falsy. -/
lemma runAIPipeline_persists_parsed_scores (db : Db) (vs : VectorStore) (env : PipelineEnv)
    (jobId : String) (job : JobRow) (cv rep : DocumentRow) (t₁ t₂ ctx₁ ctx₂ : String)
    (qc qp : ℚ) (fc fp : String)
    (hjobrow : db.jobs jobId = some job)
    (hcvdoc : db.documents job.cvId = some cv)
    (hrepdoc : db.documents job.reportId = some rep)
    (hex : extractTextFromPdfs env cv.path rep.path = .ok (t₁, t₂))
    (hq1 : queryForContext vs env.cvEmbed env.select 4 = .ok ctx₁)
    (hq2 : queryForContext vs env.reportEmbed env.select 4 = .ok ctx₂)
    (hcvparse : parseEvaluation (generateEvaluation env.cvGen) cvFallback =
      .jobj [("score", .jnum qc), ("feedback", .jstr fc)])
    (hrepparse : parseEvaluation (generateEvaluation env.reportGen) reportFallback =
      .jobj [("score", .jnum qp), ("feedback", .jstr fp)])
    (htx : env.tx = { upsertFails := false, jobUpdateFails := false })
    (hres : db.results jobId = none) :
    ∃ db', runAIPipeline db vs env jobId = .ok db' ∧
      db'.jobs jobId = some { job with status := "completed" } ∧
      db'.results jobId = some
        { jobId := jobId, cvMatchRate := some qc, cvFeedback := some fc,
          projectScore := some qp, projectFeedback := some fp,
          overallSummary := some
            (match generateEvaluation env.summaryGen with
              | none => summaryFallback
              | some s => if s = "" then summaryFallback else s) } ∧
      ∀ j, j ≠ jobId → db'.jobs j = db.jobs j ∧ db'.results j = db.results j := by
  unfold runAIPipeline saveEvaluationResult
  rw [show getJobById db jobId = .ok (job, cv, rep) by
    simp [getJobById, hjobrow, hcvdoc, hrepdoc]]
  simp only [bind, Except.bind]
  rw [hex]
  simp only [bind, Except.bind]
  rw [hq1]
  simp only [bind, Except.bind]
  rw [hcvparse]
  simp only [jsGet, lookupLast, List.foldl, bind, Except.bind]
  simp only [String.reduceEq, if_false, if_true, reduceIte]
  rw [hq2]
  simp only [bind, Except.bind]
  rw [hrepparse]
  simp only [jsGet, lookupLast, List.foldl, bind, Except.bind]
  simp only [String.reduceEq, if_false, if_true, reduceIte]
  rw [htx]
  simp only [floatField, stringField, bind, Except.bind, Bool.false_eq_true, if_false,
    reduceIte]
  rw [hres]
  simp only [createField, hjobrow, pure, Except.pure]
  refine ⟨_, rfl, ?_, ?_, ?_⟩
  · simp
  · simp
  · intro j hj
    simp [hj]

/-! ## C1 -/

/-- C1 counterexample: when the evaluation-generation call fails on the
delivery, the job does NOT end `'failed'` after 3 attempts — the error
is caught inside `generateEvaluation` (which returns `null`), the
pipeline substitutes the fallbacks, and the job completes on the first
attempt; the work item is removed, not retried and not retained. -/
theorem c1_counterexample :
    (c1Sys.db.jobs "j1").map (fun job => job.status) = some "completed" ∧
    c1Sys.db.results "j1" = some
      { jobId := "j1", cvMatchRate := some 0,
        cvFeedback := some "Gagal mem-parsing respons LLM untuk CV.",
        projectScore := some 0,
        projectFeedback := some "Gagal mem-parsing respons LLM untuk Laporan Proyek.",
        overallSummary := some "Gagal menghasilkan ringkasan akhir." } ∧
    c1Sys.waiting = [] ∧ c1Sys.failedSet = [] :=
  ⟨rfl, rfl, rfl, rfl⟩

/-- C1 (amended): a transient generation-API failure is swallowed by
`LlmService.generateEvaluation` (it returns `null` instead of
throwing), so whenever loading, extraction and retrieval succeed and
every generation call fails, the pipeline succeeds on that very
attempt: the job ends `'completed'` with the two stage fallbacks
(score 0) and the fixed summary fallback persisted; the queue's
3-attempt retry policy is never exercised by generation failures. -/
theorem c1_generation_failure_completes_with_fallbacks (db : Db) (vs : VectorStore)
    (env : PipelineEnv) (jobId : String) (job : JobRow) (cv rep : DocumentRow)
    (t₁ t₂ ctx₁ ctx₂ e₁ e₂ e₃ : String)
    (hjobrow : db.jobs jobId = some job)
    (hcvdoc : db.documents job.cvId = some cv)
    (hrepdoc : db.documents job.reportId = some rep)
    (hex : extractTextFromPdfs env cv.path rep.path = .ok (t₁, t₂))
    (hq1 : queryForContext vs env.cvEmbed env.select 4 = .ok ctx₁)
    (hq2 : queryForContext vs env.reportEmbed env.select 4 = .ok ctx₂)
    (hcv : env.cvGen = .error e₁) (hrep : env.reportGen = .error e₂)
    (hsum : env.summaryGen = .error e₃)
    (htx : env.tx = { upsertFails := false, jobUpdateFails := false })
    (hres : db.results jobId = none) :
    ∃ db', runAIPipeline db vs env jobId = .ok db' ∧
      db'.jobs jobId = some { job with status := "completed" } ∧
      db'.results jobId = some
        { jobId := jobId, cvMatchRate := some 0,
          cvFeedback := some "Gagal mem-parsing respons LLM untuk CV.",
          projectScore := some 0,
          projectFeedback := some "Gagal mem-parsing respons LLM untuk Laporan Proyek.",
          overallSummary := some summaryFallback } := by
  obtain ⟨db', hrun, hjob', hres', _⟩ :=
    runAIPipeline_persists_parsed_scores db vs env jobId job cv rep t₁ t₂ ctx₁ ctx₂
      0 0 "Gagal mem-parsing respons LLM untuk CV."
      "Gagal mem-parsing respons LLM untuk Laporan Proyek."
      hjobrow hcvdoc hrepdoc hex hq1 hq2
      (by rw [hcv]; rfl) (by rw [hrep]; rfl) htx hres
  refine ⟨db', hrun, hjob', ?_⟩
  rw [hres', hsum]
  rfl

/-- Lemma: `updateJobStatus` only throws when the job row is absent. -/
lemma updateJobStatus_error_none {db : Db} {jobId st : String} {msg : Option String} {e : String}
    (h : updateJobStatus db jobId st msg = .error e) : db.jobs jobId = none := by
  unfold updateJobStatus at h
  cases hjob : db.jobs jobId with
  | none => rfl
  | some job =>
    rw [hjob] at h
    dsimp only at h
    by_cases hst : st = "failed"
    · rw [if_pos hst] at h
      exact absurd h (by simp)
    · rw [if_neg hst] at h
      exact absurd h (by simp)

/-- A committed completion transaction leaves the job `'completed'`,
a Result row present, and every other row untouched. -/
lemma save_ok_post {db : Db} {jobId : String} {d : EvaluationResultData} {tx : TxFail}
    {db' : Db} {u : Unit} (h : saveEvaluationResult db jobId d tx = (db', .ok u)) :
    (db'.jobs jobId).map (fun j => j.status) = some "completed" ∧
    (db'.results jobId).isSome ∧
    ∀ j, j ≠ jobId → db'.jobs j = db.jobs j ∧ db'.results j = db.results j := by
  unfold saveEvaluationResult at h
  split at h
  · exact absurd h (by simp)
  · split at h
    · exact absurd h (by simp)
    · dsimp only at h
      split at h
      · exact absurd h (by simp)
      · split at h
        · exact absurd h (by simp)
        · rename_i job hjob
          simp only [Prod.mk.injEq] at h
          obtain ⟨hdb, -⟩ := h
          subst hdb
          refine ⟨by simp, by simp, ?_⟩
          intro j hj
          simp [hj]

/-- A successful pipeline run completes its job and touches no other
row. -/
lemma runAIPipeline_post {db : Db} {vs : VectorStore} {env : PipelineEnv} {jobId : String}
    {db' : Db} (h : runAIPipeline db vs env jobId = .ok db') :
    (db'.jobs jobId).map (fun j => j.status) = some "completed" ∧
    (db'.results jobId).isSome ∧
    ∀ j, j ≠ jobId → db'.jobs j = db.jobs j ∧ db'.results j = db.results j := by
  unfold runAIPipeline at h
  cases h1 : getJobById db jobId with
  | error e => rw [h1] at h; exact absurd h (by simp [bind, Except.bind])
  | ok triple =>
    obtain ⟨job, cv, rep⟩ := triple
    rw [h1] at h
    simp only [bind, Except.bind] at h
    cases h2 : extractTextFromPdfs env cv.path rep.path with
    | error e => rw [h2] at h; exact absurd h (by simp)
    | ok texts =>
      obtain ⟨t₁, t₂⟩ := texts
      rw [h2] at h
      dsimp only at h
      cases h3 : queryForContext vs env.cvEmbed env.select 4 with
      | error e => rw [h3] at h; exact absurd h (by simp)
      | ok ctx₁ =>
        rw [h3] at h
        dsimp only at h
        cases h4 : jsGet (parseEvaluation (generateEvaluation env.cvGen) cvFallback) "score" with
        | error e => rw [h4] at h; exact absurd h (by simp)
        | ok cvScore =>
          rw [h4] at h
          dsimp only at h
          cases h5 : queryForContext vs env.reportEmbed env.select 4 with
          | error e => rw [h5] at h; exact absurd h (by simp)
          | ok ctx₂ =>
            rw [h5] at h
            dsimp only at h
            cases h6 : jsGet (parseEvaluation (generateEvaluation env.reportGen) reportFallback)
                "score" with
            | error e => rw [h6] at h; exact absurd h (by simp)
            | ok repScore =>
              rw [h6] at h
              dsimp only at h
              cases h7 : jsGet (parseEvaluation (generateEvaluation env.cvGen) cvFallback)
                  "feedback" with
              | error e => rw [h7] at h; exact absurd h (by simp)
              | ok cvFb =>
                rw [h7] at h
                dsimp only at h
                cases h8 : jsGet (parseEvaluation (generateEvaluation env.reportGen) reportFallback)
                    "feedback" with
                | error e => rw [h8] at h; exact absurd h (by simp)
                | ok repFb =>
                  rw [h8] at h
                  dsimp only at h
                  split at h
                  · exact absurd h (by simp)
                  · rename_i dbx a hs
                    simp only [Except.ok.injEq] at h
                    subst h
                    exact save_ok_post hs

/-- Witness for C1's amended theorem on the fixture store. -/
theorem c1_witness :
    ∃ db', runAIPipeline db0 vs0 genFailEnv "j1" = .ok db' ∧
      db'.jobs "j1" = some { job1 "queued" with status := "completed" } ∧
      db'.results "j1" = some
        { jobId := "j1", cvMatchRate := some 0,
          cvFeedback := some "Gagal mem-parsing respons LLM untuk CV.",
          projectScore := some 0,
          projectFeedback := some "Gagal mem-parsing respons LLM untuk Laporan Proyek.",
          overallSummary := some summaryFallback } :=
  c1_generation_failure_completes_with_fallbacks db0 vs0 genFailEnv "j1" (job1 "queued")
    cvDoc reportDoc "extracted text" "extracted text" "rubric text" "rubric text"
    "API failure" "API failure" "API failure"
    (by rfl) (by rfl) (by rfl) (by rfl) (by rfl) (by rfl) (by rfl) (by rfl) (by rfl)
    (by rfl) (by rfl)

/-! ## C2 -/

/-- C2 counterexample: `'completed'` is not terminal under redelivery —
the consumer re-marks the job `'processing'` with no status guard, and
when the redelivered attempt fails the job ends `'failed'`, overwriting
`'completed'`. -/
theorem c2_counterexample :
    ((mkDb (some (job1 "completed")) (some fullResultRow)).jobs "j1").map
      (fun j => j.status) = some "completed" ∧
    c2Redelivery.2 = .error "Failed to parse PDF files: ENOENT" ∧
    (c2Redelivery.1.jobs "j1").map (fun j => j.status) = some "failed" :=
  ⟨rfl, rfl, rfl⟩

/-- C2 (amended): each delivery drives the payload job only through the
consumer's three writes — `'processing'` on entry (whatever the prior
status, including `'completed'`: there is no terminal-state guard),
then `'completed'` exactly when the delivery succeeds, or `'failed'`
when it fails (a failed delivery may also leave the store untouched
when the job row is missing or the payload/name is rejected);
`'queued'` is never re-entered and no other job's rows change.  Absent
a duplicate delivery of its work item, a completed job is never
touched again. -/
theorem c2_status_transitions (db : Db) (vs : VectorStore) (item : WorkItem)
    (env : PipelineEnv) :
    (∀ u, (process db vs item env).2 = .ok u →
      ((process db vs item env).1.jobs (payloadId item)).map (fun j => j.status) =
        some "completed") ∧
    (∀ e, (process db vs item env).2 = .error e →
      (process db vs item env).1 = db ∨
      ((process db vs item env).1.jobs (payloadId item)).map (fun j => j.status) =
        some "failed") ∧
    (∀ j, j ≠ payloadId item →
      (process db vs item env).1.jobs j = db.jobs j ∧
      (process db vs item env).1.results j = db.results j) := by
  unfold process
  split
  · exact ⟨fun u hu => absurd hu (by simp), fun e _ => Or.inl rfl, fun j _ => ⟨rfl, rfl⟩⟩
  · split
    · dsimp only
      cases h1 : updateJobStatus db (payloadId item) "processing" none with
      | error e =>
        dsimp only
        cases h2 : updateJobStatus db (payloadId item) "failed" (some e) with
        | error e₂ =>
          dsimp only
          exact ⟨fun u hu => absurd hu (by simp), fun e' _ => Or.inl rfl, fun j _ => ⟨rfl, rfl⟩⟩
        | ok db₂ =>
          dsimp only
          refine ⟨fun u hu => absurd hu (by simp), fun e' _ => Or.inr ?_,
            fun j hj => updateJobStatus_frame h2 j hj⟩
          obtain ⟨job, -, hj2⟩ := updateJobStatus_status h2
          simp [hj2]
      | ok db₁ =>
        dsimp only
        cases hp : runAIPipeline db₁ vs env (payloadId item) with
        | ok db₂ =>
          dsimp only
          obtain ⟨hst, -, hframe⟩ := runAIPipeline_post hp
          refine ⟨fun u _ => hst, fun e he => absurd he (by simp), fun j hj => ?_⟩
          obtain ⟨hfj, hfr⟩ := hframe j hj
          obtain ⟨hgj, hgr⟩ := updateJobStatus_frame h1 j hj
          exact ⟨hfj.trans hgj, hfr.trans hgr⟩
        | error e =>
          dsimp only
          cases h2 : updateJobStatus db₁ (payloadId item) "failed" (some e) with
          | error e₂ =>
            exfalso
            obtain ⟨job, -, hj1⟩ := updateJobStatus_status h1
            have hnone := updateJobStatus_error_none h2
            rw [hj1] at hnone
            exact Option.noConfusion hnone
          | ok db₂ =>
            dsimp only
            refine ⟨fun u hu => absurd hu (by simp), fun e' _ => Or.inr ?_, fun j hj => ?_⟩
            · obtain ⟨job, -, hj2⟩ := updateJobStatus_status h2
              simp [hj2]
            · obtain ⟨h2j, h2r⟩ := updateJobStatus_frame h2 j hj
              obtain ⟨h1j, h1r⟩ := updateJobStatus_frame h1 j hj
              exact ⟨h2j.trans h1j, h2r.trans h1r⟩
    · exact ⟨fun u hu => absurd hu (by simp), fun e _ => Or.inl rfl, fun j _ => ⟨rfl, rfl⟩⟩

/-- Witness for C2: a successful delivery of the fixture job ends it
`'completed'`. -/
theorem c2_witness :
    ((process db0 vs0 item1 okEnv).1.jobs (payloadId item1)).map (fun j => j.status) =
      some "completed" :=
  (c2_status_transitions db0 vs0 item1 okEnv).1 () (by rfl)

/-! ## C7 -/

/-- C7 counterexample: persisted Result rows are NOT confined to
`projectScore ∈ [1,5] ∪ {null}` — the report-stage fallback persists
`projectScore = 0`, and a generator response of `{"score": 7, ...}`
persists `projectScore = 7`, both on completed jobs. -/
theorem c7_counterexample :
    (c7FallbackRun.1.results "j1").map (fun r => r.projectScore) = some (some 0) ∧
    ¬ ((1 : ℚ) ≤ 0) ∧
    (c7FallbackRun.1.jobs "j1").map (fun j => j.status) = some "completed" ∧
    (c7OutOfRangeRun.1.results "j1").map (fun r => r.projectScore) = some (some 7) ∧
    ¬ ((7 : ℚ) ≤ 5) :=
  ⟨rfl, by norm_num, rfl, rfl, by norm_num⟩

/-- C7 (amended): the pipeline persists whatever score the model's JSON
carried (or the fallback 0) with no range validation or clamping: for
every rational `qc`/`qp` the scoring stages parse out, exactly those
values reach the Result row, and the `[0,1]` and `[1,5]` ranges are
requested in the prompts but never enforced; moreover a NULL score can
be persisted even on the success path — a valid-JSON report response
with no numeric `score` field completes the job with `projectScore`
NULL. -/
theorem c7_scores_persisted_without_range_check (db : Db) (vs : VectorStore)
    (env : PipelineEnv) (jobId : String) (job : JobRow) (cv rep : DocumentRow)
    (t₁ t₂ ctx₁ ctx₂ : String) (qc qp : ℚ) (fc fp : String)
    (hjobrow : db.jobs jobId = some job)
    (hcvdoc : db.documents job.cvId = some cv)
    (hrepdoc : db.documents job.reportId = some rep)
    (hex : extractTextFromPdfs env cv.path rep.path = .ok (t₁, t₂))
    (hq1 : queryForContext vs env.cvEmbed env.select 4 = .ok ctx₁)
    (hq2 : queryForContext vs env.reportEmbed env.select 4 = .ok ctx₂)
    (hcvparse : parseEvaluation (generateEvaluation env.cvGen) cvFallback =
      .jobj [("score", .jnum qc), ("feedback", .jstr fc)])
    (hrepparse : parseEvaluation (generateEvaluation env.reportGen) reportFallback =
      .jobj [("score", .jnum qp), ("feedback", .jstr fp)])
    (htx : env.tx = { upsertFails := false, jobUpdateFails := false })
    (hres : db.results jobId = none) :
    (∃ db', runAIPipeline db vs env jobId = .ok db' ∧
      (db'.results jobId).map (fun r => (r.cvMatchRate, r.projectScore)) =
        some (some qc, some qp)) ∧
    ((process db0 vs0 item1 reportNoScoreEnv).1.results "j1").map
      (fun r => r.projectScore) = some none ∧
    ((process db0 vs0 item1 reportNoScoreEnv).1.jobs "j1").map
      (fun j => j.status) = some "completed" := by
  obtain ⟨db', hrun, -, hres', -⟩ :=
    runAIPipeline_persists_parsed_scores db vs env jobId job cv rep t₁ t₂ ctx₁ ctx₂
      qc qp fc fp hjobrow hcvdoc hrepdoc hex hq1 hq2 hcvparse hrepparse htx hres
  exact ⟨⟨db', hrun, by simp [hres']⟩, rfl, rfl⟩

/-- Witness for C7's amended theorem: the out-of-range score 7 is
persisted verbatim, and the no-score response persists NULL on a
completed job. -/
theorem c7_witness :
    (∃ db', runAIPipeline db0 vs0 reportOutOfRangeEnv "j1" = .ok db' ∧
      (db'.results "j1").map (fun r => (r.cvMatchRate, r.projectScore)) =
        some (some (mkRat 4 5), some 7)) ∧
    ((process db0 vs0 item1 reportNoScoreEnv).1.results "j1").map
      (fun r => r.projectScore) = some none ∧
    ((process db0 vs0 item1 reportNoScoreEnv).1.jobs "j1").map
      (fun j => j.status) = some "completed" :=
  c7_scores_persisted_without_range_check db0 vs0 reportOutOfRangeEnv "j1" (job1 "queued")
    cvDoc reportDoc "extracted text" "extracted text" "rubric text" "rubric text"
    (mkRat 4 5) 7 "Strong match" "overshoot"
    (by rfl) (by rfl) (by rfl) (by rfl) (by rfl) (by rfl) (by rfl) (by rfl) (by rfl) (by rfl)

/-! ## C5 -/

/-- C5 counterexample: the two "permanent" error classes ARE re-attempted —
a malformed payload and a missing Job row both make `process` throw,
and the queue schedules a second delivery (attempt counter 1 of 3);
moreover the missing-job delivery cannot mark any Job `'failed'`
(the `'failed'` update itself throws `P2025`), and the store is
untouched in both cases. -/
theorem c5_counterexample :
    c5BadSys.waiting =
      [{ name := "evaluate-job", data := some { jobId := none }, attemptsMade := 1 }] ∧
    c5GhostSys.waiting =
      [{ name := "evaluate-job", data := some { jobId := some "ghost" }, attemptsMade := 1 }] ∧
    c5GhostSys.db.jobs "ghost" = none ∧
    c5BadSys.db.jobs "j1" = some (job1 "queued") ∧
    c5GhostSys.db.jobs "j1" = some (job1 "queued") :=
  ⟨rfl, rfl, rfl, rfl, rfl⟩

/-- C5 (amended): the consumer draws no permanent/transient
distinction: a malformed payload throws without touching the store, a
missing Job row throws `P2025` (so the Job cannot be marked `'failed'`
— there is no row), and every thrown error, these included, makes the
queue re-attempt the WorkItem with its counter bumped while fewer than
3 attempts were made. -/
theorem c5_permanent_errors_are_retried (db : Db) (vs : VectorStore) (env : PipelineEnv)
    (item : WorkItem) (rest fs : List WorkItem) :
    (invalidPayload item = true →
      process db vs item env = (db, .error "Invalid job data")) ∧
    (invalidPayload item = false → item.name = EVALUATION_JOB_NAME →
      db.jobs (payloadId item) = none →
      process db vs item env = (db, .error "P2025: record to update not found")) ∧
    (∀ e, (process db vs item env).2 = .error e → item.attemptsMade + 1 < QUEUE_ATTEMPTS →
      stepQueue { db := db, vs := vs, waiting := item :: rest, failedSet := fs } env =
        { db := (process db vs item env).1, vs := vs,
          waiting := rest ++ [{ item with attemptsMade := item.attemptsMade + 1 }],
          failedSet := fs }) := by
  refine ⟨?_, ?_, ?_⟩
  · intro h
    unfold process
    rw [if_pos h]
  · intro hinv hname hmiss
    simp [process, updateJobStatus, hinv, hname, hmiss]
  · intro e he hlt
    unfold stepQueue
    dsimp only
    cases hp : process db vs item env with
    | mk db' out =>
      rw [hp] at he
      dsimp only at he
      subst he
      dsimp only
      rw [if_pos hlt]

/-- Witness for C5 at the malformed-payload delivery. -/
theorem c5_witness :
    process db0 vs0 badItem okEnv = (db0, .error "Invalid job data") ∧
    stepQueue { db := db0, vs := vs0, waiting := [badItem], failedSet := [] } okEnv =
      { db := (process db0 vs0 badItem okEnv).1, vs := vs0,
        waiting := [{ badItem with attemptsMade := badItem.attemptsMade + 1 }],
        failedSet := [] } :=
  ⟨(c5_permanent_errors_are_retried db0 vs0 okEnv badItem [] []).1 (by rfl),
   (c5_permanent_errors_are_retried db0 vs0 okEnv badItem [] []).2.2 "Invalid job data"
     (by rfl) (by decide)⟩

/-! ## C6 -/

/-- C6 counterexample: between delivery attempts the poller does NOT
see `'processing'` — the consumer wrote `'failed'` before re-raising,
and the polling response is `{id, status: "failed"}`; moreover the
recorded error text is not surfaced even after retries are exhausted,
because `formatResult` omits the `result` object for every
non-completed job (the text sits only in the Result row). -/
theorem c6_counterexample :
    c6Sys1.waiting =
      [{ name := "evaluate-job", data := some { jobId := some "j1" }, attemptsMade := 1 }] ∧
    getJobResult c6Sys1.db "j1" = .ok { id := "j1", status := "failed", result := none } ∧
    (c6Sys1.db.results "j1").map (fun r => r.overallSummary) =
      some (some "Failed to parse PDF files: ENOENT") ∧
    c6Sys3.waiting = [] ∧
    c6Sys3.failedSet =
      [{ name := "evaluate-job", data := some { jobId := some "j1" }, attemptsMade := 3 }] ∧
    getJobResult c6Sys3.db "j1" = .ok { id := "j1", status := "failed", result := none } :=
  ⟨rfl, rfl, rfl, rfl, rfl, rfl⟩

/-- C6 (amended): the polling response for every job that is not
`'completed'` — queued, processing, or failed, mid-retry or after
exhaustion — is exactly `{id, status}` with no `result` object, so the
stored error text is never surfaced through polling, and a poll landing
between a failed attempt and its retry reads `'failed'`, not
`'processing'`. -/
theorem c6_poll_hides_error_text (job : JobRow) (result : Option ResultRow)
    (h : job.status ≠ "completed") :
    formatResult job result = { id := job.id, status := job.status, result := none } := by
  unfold formatResult
  cases result with
  | none => rfl
  | some r =>
    dsimp only
    rw [if_pos h]

/-- Witness for C6: a failed job with a fully populated Result still
polls as `{id, status}` only. -/
theorem c6_witness :
    formatResult (job1 "failed") (some fullResultRow) =
      { id := (job1 "failed").id, status := (job1 "failed").status, result := none } :=
  c6_poll_hides_error_text (job1 "failed") (some fullResultRow) (by decide)

/-! ## C8 -/

/-- C8 counterexample: a Result whose four score/feedback fields are
all non-null can belong to a `'failed'` job — after a completed job's
work item is redelivered and the attempt fails, the `'failed'` upsert
overwrites only `overallSummary`, leaving the scores in place while the
status becomes `'failed'`. -/
theorem c8_counterexample :
    (c8FirstRun.jobs "j1").map (fun j => j.status) = some "completed" ∧
    c8Redelivered.results "j1" = some
      { jobId := "j1", cvMatchRate := some (mkRat 4 5), cvFeedback := some "Strong match",
        projectScore := some 4, projectFeedback := some "Solid architecture",
        overallSummary := some "Failed to parse PDF files: ENOENT" } ∧
    (c8Redelivered.jobs "j1").map (fun j => j.status) = some "failed" :=
  ⟨rfl, rfl, rfl⟩

/-- C8 (amended): the claimed invariant holds at write time — the
completion transaction leaves the job `'completed'` with a Result row
in place, and the failure path creating a fresh Result writes only
`overallSummary` with the job `'failed'` — but it is not preserved by
later redelivery (see the counterexample). -/
theorem c8_result_shape_at_write_time (db : Db) (jobId : String) (d : EvaluationResultData)
    (tx : TxFail) (msg : String) :
    (∀ db' u, saveEvaluationResult db jobId d tx = (db', .ok u) →
      (db'.jobs jobId).map (fun j => j.status) = some "completed" ∧
      (db'.results jobId).isSome) ∧
    (∀ db', db.results jobId = none →
      updateJobStatus db jobId "failed" (some msg) = .ok db' →
      db'.results jobId = some
        { jobId := jobId, cvMatchRate := none, cvFeedback := none, projectScore := none,
          projectFeedback := none, overallSummary := some msg } ∧
      (db'.jobs jobId).map (fun j => j.status) = some "failed") := by
  constructor
  · intro db' u h
    obtain ⟨hst, hsome, -⟩ := save_ok_post h
    exact ⟨hst, hsome⟩
  · intro db' hres hupd
    cases hjob : db.jobs jobId with
    | none =>
      exfalso
      unfold updateJobStatus at hupd
      rw [hjob] at hupd
      exact Except.noConfusion hupd
    | some job =>
      unfold updateJobStatus at hupd
      rw [hjob] at hupd
      dsimp only at hupd
      rw [if_pos rfl] at hupd
      simp only [Except.ok.injEq] at hupd
      subst hupd
      constructor
      · simp [upsertSummary, hres]
      · simp [upsertSummary]

/-- Witness for C8's write-time theorem: both branches exercised on
concrete stores. -/
theorem c8_witness :
    (((saveEvaluationResult db0 "j1" goodResultData
        { upsertFails := false, jobUpdateFails := false }).1.jobs "j1").map
      (fun j => j.status) = some "completed" ∧
     ((saveEvaluationResult db0 "j1" goodResultData
        { upsertFails := false, jobUpdateFails := false }).1.results "j1").isSome) ∧
    (∃ db', updateJobStatus (mkDb (some (job1 "processing")) none) "j1" "failed"
        (some "boom") = .ok db' ∧
      (db'.results "j1" = some
        { jobId := "j1", cvMatchRate := none, cvFeedback := none, projectScore := none,
          projectFeedback := none, overallSummary := some (String.mk ['b','o','o','m']) } ∧
       (db'.jobs "j1").map (fun j => j.status) = some "failed")) :=
  ⟨(c8_result_shape_at_write_time db0 "j1" goodResultData
      { upsertFails := false, jobUpdateFails := false } "boom").1 _ () (by rfl),
   ⟨_, rfl,
    (c8_result_shape_at_write_time (mkDb (some (job1 "processing")) none) "j1" goodResultData
      { upsertFails := false, jobUpdateFails := false } "boom").2 _ rfl rfl⟩⟩

/-! ## C10 -/

/-- C10: the startup ingestion never propagates an error — every
failure inside its body is swallowed by the `catch`, so
`onModuleInit` always resolves — and a later `queryForContext`
against whatever collection ingestion left behind (empty or partial)
returns the concatenation of the matches' texts, the empty string when
the collection holds no points, rather than raising. -/
theorem c10_ingest_swallows_errors_query_degrades (vs : VectorStore) (ienv : IngestEnv)
    (emb : Except String (List ℚ)) (sel : List VectorPoint → Nat → List VectorPoint)
    (limit : Nat) :
    (∃ vs', ragOnModuleInit vs ienv = .ok vs') ∧
    (∀ coll,
      findCollection (ingestGroundTruthDocuments vs ienv) QDRANT_COLLECTION_NAME = some coll →
      ∀ v, emb = .ok v →
      queryForContext (ingestGroundTruthDocuments vs ienv) emb sel limit =
        .ok (String.intercalate contextSeparator ((sel coll.points limit).map (fun p => p.text))) ∧
      (coll.points = [] → sel [] limit = [] →
        queryForContext (ingestGroundTruthDocuments vs ienv) emb sel limit = .ok "")) := by
  constructor
  · exact ⟨_, rfl⟩
  · intro coll hcoll v hv
    subst hv
    constructor
    · unfold queryForContext
      simp only [generateEmbedding]
      rw [hcoll]
    · intro hpts hsel
      unfold queryForContext
      simp only [generateEmbedding]
      rw [hcoll]
      dsimp only
      rw [hpts, hsel]
      rfl

/-- Witness for C10: ingesting into an empty vector store with an empty
documents directory leaves an empty collection, and querying it yields
the empty string. -/
theorem c10_witness :
    queryForContext (ingestGroundTruthDocuments { collections := [] } ingestEnv0) (.ok [1])
      (fun pts n => pts.take n) 4 = .ok "" :=
  ((c10_ingest_swallows_errors_query_degrades { collections := [] } ingestEnv0 (.ok [1])
      (fun pts n => pts.take n) 4).2 { size := 768, points := [] } (by rfl) [1] rfl).2
    (by rfl) (by rfl)

end CvEval
